import Mathlib

/-!
A shallow embedding of the fn-item crate (src/lib.rs).

The crate is a purely compile-time mechanism: the fn_item! macro wraps a
capture-free closure into a token
(IsFnItem proof value, PhantomData of the function-pointer type, the closure),
the FnItem trait exposes a single static call operation, and the ImplFnItem!
macro generates the consumer-side bounds from one written signature.

We model, directly from the source:
  - the runtime value produced by the macro expansion: the match on
    Option::None::<Infallible> with its reachable first arm and unreachable
    second arm (fix_types);
  - the evaluation order and effects of the expansion, via state passing;
  - the compile-time checks: the function-pointer coercion in
    coerce_to_fn_ptr succeeds exactly when the closure captures nothing, and
    the const assertions inside FnItem::call check the size and alignment of
    the callable type;
  - the auto-trait and derive reasoning giving Send, Sync and Copy for the
    IsFnItem implementor, plus the supertrait bound on the FnItem trait;
  - the expansion of ImplFnItem! as a transformation on a small AST of Rust
    types and bounds;
  - the set of tuple arities covered by the impl_tuples! invocation.
-/

/-- Model of core::convert::Infallible, a type with no values. -/
inductive Infallible : Type where

/-- Model of core::marker::PhantomData<P>, a zero-size type-only placeholder. -/
inductive PhantomData (P : Type) : Type where
  | mk

/-- Model of the private struct IsFnItem<P, F>(PhantomData<(P, F)>), the
implementor of FnItem (src/lib.rs line 151). -/
structure IsFnItem (P F : Type) : Type where
  ph : PhantomData (P × F)

/-- Model of the public type alias ImplFnItem<FI, P, F> = (FI, PhantomData<P>, F)
(src/lib.rs line 162). -/
def ImplFnItem (FI P F : Type) : Type := FI × PhantomData P × F

/-- Model of assert_is_fn_item (src/lib.rs lines 177 to 179): builds the
zero-size proof value. -/
def assert_is_fn_item (P F : Type) : IsFnItem P F := ⟨PhantomData.mk⟩

/-- Model of coerce_to_fn_ptr (src/lib.rs lines 182 to 184): takes the closure
value coerced to its function-pointer type and keeps only the type. -/
def coerce_to_fn_ptr {P : Type} (_ : P) : PhantomData P := PhantomData.mk

/-- Model of fix_types (src/lib.rs lines 200 to 205): consumes an Infallible
witness and a function of the shape of core::ptr::fn_addr_eq, and can never
actually return (match e \x7b\x7d on the empty type). -/
def fix_types {P F : Type} (e : Infallible) (_ : P → (Unit → Unit) → Bool) :
    ImplFnItem (IsFnItem P F) P F :=
  nomatch e

/-- The scrutinee of the match in the fn_item! expansion (src/lib.rs line 78):
Option::None at type Option<Infallible>. -/
def fn_item_scrutinee : Option Infallible := Option.none

/-- Model of the value core::ptr::fn_addr_eq passed to fix_types: some value of
the model type of fn(P, fn()) -> bool (only its type matters). -/
def fn_addr_eq_model (P : Type) : P → (Unit → Unit) → Bool := fun _ _ => true

/-- Value-level model of the fn_item! macro expansion (src/lib.rs lines 77 to
90): match on None::<Infallible>; the first arm builds the triple, the second
arm calls fix_types on the Infallible witness.  The function c models the
implicit rustc coercion of the expression from its closure type F to its bare
function-pointer type P at the coerce_to_fn_ptr call site. -/
def fn_item_match (P : Type) {F : Type} (c : F → P) (f : F) :
    ImplFnItem (IsFnItem P F) P F :=
  match fn_item_scrutinee with
  | Option.none => (assert_is_fn_item P F, coerce_to_fn_ptr (c f), f)
  | Option.some e => fix_types e (fn_addr_eq_model P)

/-- State-passing evaluation: an effectful expression producing a value of α
while transforming a state σ. -/
def Eval (σ α : Type) : Type := σ → α × σ

/-- Effect-level model of the fn_item! expansion: the tuple elements are
evaluated in order, so assert_is_fn_item() runs no user code,
coerce_to_fn_ptr($e) evaluates the expression once and keeps only its type,
and the trailing $e evaluates it a second time and packages the value. -/
def fn_item_eval (P : Type) {σ F : Type} (c : F → P) (e : Eval σ F) :
    Eval σ (ImplFnItem (IsFnItem P F) P F) := fun s =>
  let fi := assert_is_fn_item P F
  let r1 := e s
  let ph := coerce_to_fn_ptr (c r1.1)
  let r2 := e r1.2
  ((fi, ph, r2.1), r2.2)

/-- Compile-time metadata of a closure type F: whether the closure expression
syntactically captures any variable, the size and alignment of F, and the call
behavior of a value of F (state-passing, possibly ending in a panic, modelled
as the error case of Except).  The field zst_of_capture_free records the Rust
layout guarantee that a closure capturing nothing is a zero-sized type of
alignment one. -/
structure ClosureMeta (F σ A R : Type) : Type where
  capturesVars : Bool
  size : Nat
  align : Nat
  code : F → A → σ → Except String R × σ
  zst_of_capture_free : capturesVars = false → size = 0 ∧ align = 1

/-- Whether fn_item!(e) compiles: coerce_to_fn_ptr forces a coercion of the
expression to its bare function-pointer type (src/lib.rs lines 81 and 182 to
184), and rustc accepts that coercion exactly when the closure captures no
variable. -/
def fn_item_compiles {F σ A R : Type} (m : ClosureMeta F σ A R) : Bool :=
  !m.capturesVars

/-- The const assertions inside FnItem::call (src/lib.rs lines 238 to 241):
size_of::<Func>() == 0 and align_of::<Func>() == 1. -/
def constAssertsHold {F σ A R : Type} (m : ClosureMeta F σ A R) : Bool :=
  m.size == 0 && m.align == 1

/-- The assertion condition as the claim words it: the callable type is
zero-size and zero-alignment. -/
def claimedAssertsHold {F σ A R : Type} (m : ClosureMeta F σ A R) : Bool :=
  m.size == 0 && m.align == 0

/-- Direct invocation of the closure value f on the arguments, from state s. -/
def invoke {F σ A R : Type} (m : ClosureMeta F σ A R) (f : F) (args : A) (s : σ) :
    Except String R × σ :=
  m.code f args s

/-- Model of FnItem::call for IsFnItem (src/lib.rs lines 234 to 244): first the
const block evaluates the size and alignment assertions (a failure aborts
compilation, modelled as the outer error case), then the zero-sized Func value
is conjured out of a unit reference and invoked.  The conjured value is
modelled by the default element of F; the theorems require every value of F to
be equal, which is exactly the semantics of a zero-sized Rust type. -/
def FnItemCall {F σ A R : Type} (m : ClosureMeta F σ A R) [Inhabited F]
    (args : A) (s : σ) : Except String (Except String R × σ) :=
  if constAssertsHold m then Except.ok (m.code default args s)
  else Except.error "const assertion failed"

/-- The auto traits Send and Sync of a Rust type together with Copy, as
booleans. -/
structure AutoTraits : Type where
  send : Bool
  sync : Bool
  copy : Bool

/-- PhantomData<T> is Send and Sync exactly when T is, and is always Copy. -/
def phantomDataTraits (t : AutoTraits) : AutoTraits :=
  { send := t.send, sync := t.sync, copy := true }

/-- A pair (P, F) is Send, Sync or Copy exactly when both components are. -/
def pairTraits (a b : AutoTraits) : AutoTraits :=
  { send := a.send && b.send, sync := a.sync && b.sync, copy := a.copy && b.copy }

/-- Traits of IsFnItem<P, F>: its single field is PhantomData<(P, F)>, so the
auto traits follow the field, and derive(Clone, Copy) succeeds because the
field is Copy (src/lib.rs lines 150 and 151). -/
def isFnItemTraits (p f : AutoTraits) : AutoTraits :=
  phantomDataTraits (pairTraits p f)

/-- The Send + Sync + Copy conjunction: the supertrait bound of FnItem
(src/lib.rs line 47) and part of the where-clause of the impl for IsFnItem
(src/lib.rs lines 231 and 232). -/
def sendSyncCopy (t : AutoTraits) : Bool :=
  t.send && t.sync && t.copy

/-- A record of an implementation of trait FnItem<A, R>.  The declaration
pub trait FnItem<A, R>: Send + Sync + Copy (src/lib.rs line 47) forces every
implementor to be Send, Sync and Copy, recorded by the supers field. -/
structure FnItemImplRecord (A R : Type) : Type where
  selfTraits : AutoTraits
  supers : sendSyncCopy selfTraits = true
  call : A → R

/-- A small AST of the Rust types and bounds appearing in the expansion of the
ImplFnItem! macro.  Bound constructors are included so that impl-trait types
can list their bounds; a function-pointer type and a callable bound each carry
the list of quantified lifetimes, the argument types, and the optional return
type. -/
inductive RTy : Type where
  | named : String → RTy
  | fnPtr : List String → List RTy → Option RTy → RTy
  | boundSend : RTy
  | boundSync : RTy
  | boundCopy : RTy
  | fnTraitBound : List String → List RTy → Option RTy → RTy
  | fnItemTraitBound : List String → List RTy → Option RTy → RTy
  | implTy : List RTy → RTy
  | implFnItemAlias : RTy → RTy → RTy → RTy

/-- The named-parameter arm of ImplFnItem! (src/lib.rs lines 115 to 129):
the alias ImplFnItem applied to the named parameter F, the lifetime-quantified
bare function-pointer type of the written signature, and an unnamed impl type
bound by Send + Sync + Copy + Fn at the same signature. -/
def ImplFnItemNamed (F : RTy) (ls : List String) (args : List RTy)
    (ret : Option RTy) : RTy :=
  RTy.implFnItemAlias F (RTy.fnPtr ls args ret)
    (RTy.implTy [RTy.boundSend, RTy.boundSync, RTy.boundCopy,
      RTy.fnTraitBound ls args ret])

/-- The anonymous arm of ImplFnItem! (src/lib.rs lines 131 to 140): re-invokes
the macro in its named form, synthesizing the hidden parameter
impl for<..> FnItem<(T..,), R>. -/
def ImplFnItemAnon (ls : List String) (args : List RTy) (ret : Option RTy) : RTy :=
  ImplFnItemNamed (RTy.implTy [RTy.fnItemTraitBound ls args ret]) ls args ret

/-- The three generic arguments of an ImplFnItem alias type, when the type is
one. -/
def aliasParts : RTy → Option (RTy × RTy × RTy)
  | RTy.implFnItemAlias a b c => Option.some (a, b, c)
  | _ => Option.none

/-- The lifetimes quantified by a function-pointer type or by a callable
bound. -/
def lifetimesOf : RTy → List String
  | RTy.fnPtr ls _ _ => ls
  | RTy.fnTraitBound ls _ _ => ls
  | RTy.fnItemTraitBound ls _ _ => ls
  | _ => []

/-- The rows of type parameters in the impl_tuples! invocation (src/lib.rs
lines 249 to 260): one row per tuple arity, from the empty row to the row
A b on through I. -/
def implTuplesRows : List (List String) :=
  [[], ["A"], ["A", "B"], ["A", "B", "C"], ["A", "B", "C", "D"],
   ["A", "B", "C", "D", "E"], ["A", "B", "C", "D", "E", "F"],
   ["A", "B", "C", "D", "E", "F", "G"], ["A", "B", "C", "D", "E", "F", "G", "H"],
   ["A", "B", "C", "D", "E", "F", "G", "H", "I"]]

/-- The tuple arities for which impl_tuples! generates an FnItem impl. -/
def implementedArities : List Nat := implTuplesRows.map List.length

/-- Whether the crate provides an FnItem impl for argument tuples of arity n. -/
def hasFnItemTupleImpl (n : Nat) : Bool := decide (n ∈ implementedArities)

/-- A concrete capture-free closure metadata used in witnesses: a zero-sized
closure over Unit that adds one to its argument and bumps a Nat counter
state. -/
def exMeta : ClosureMeta Unit Nat Nat Nat where
  capturesVars := false
  size := 0
  align := 1
  code := fun _ n s => (Except.ok (n + 1), s + 1)
  zst_of_capture_free := fun _ => ⟨rfl, rfl⟩

/-- A concrete capturing closure metadata used in witnesses: captures one
eight-byte variable, added to the argument when called. -/
def capMeta : ClosureMeta Nat Nat Nat Nat where
  capturesVars := true
  size := 8
  align := 8
  code := fun c n s => (Except.ok (n + c), s)
  zst_of_capture_free := fun h => Bool.noConfusion h

/-- All of Send, Sync and Copy, as holds for any function pointer type and for
any capture-free closure type. -/
def allTraits : AutoTraits := ⟨true, true, true⟩

/-- A concrete FnItem implementation record used in witnesses. -/
def exImplRecord : FnItemImplRecord Nat Nat := ⟨allTraits, rfl, fun n => n⟩

/-- C1: for a capture-free closure f, FnItem::call on the token produced by
fn_item!(f) returns exactly what direct invocation of f returns, with the same
result or panic and the same final state, and the token indeed packages f
itself as its third element. -/
theorem fnItem_call_agrees_with_direct_invocation
    (P F σ A R : Type) [Inhabited F] (m : ClosureMeta F σ A R) (c : F → P) (f : F)
    (hc : fn_item_compiles m = true) (hz : ∀ a b : F, a = b)
    (args : A) (s : σ) :
    (fn_item_match P c f).2.2 = f ∧
    FnItemCall m args s = Except.ok (invoke m f args s) := by
  refine ⟨rfl, ?_⟩
  have hcap : m.capturesVars = false := by
    simpa [fn_item_compiles] using hc
  obtain ⟨h0, h1⟩ := m.zst_of_capture_free hcap
  have hca : constAssertsHold m = true := by
    simp [constAssertsHold, h0, h1]
  simp [FnItemCall, hca, invoke, hz default f]

/-- C1 witness: the concrete capture-free closure at argument 3 and counter
state 0. -/
theorem fnItem_call_agrees_witness :
    (fn_item_match (Unit → Unit) (fun _ => id) Unit.unit).2.2 = Unit.unit ∧
    FnItemCall exMeta 3 0 = Except.ok (invoke exMeta Unit.unit 3 0) :=
  fnItem_call_agrees_with_direct_invocation (Unit → Unit) Unit Nat Nat Nat exMeta
    (fun _ => id) Unit.unit rfl (fun a b => Subsingleton.elim a b) 3 0

/-- C2: every implementor of FnItem is Send, Sync and Copy by the supertrait
bound on the trait, and in particular IsFnItem<P, Func> under the where-clause
of its impl is Send, Sync and Copy. -/
theorem fnItem_implementors_copy_send_sync
    (A R : Type) (r : FnItemImplRecord A R) (p f : AutoTraits)
    (hp : sendSyncCopy p = true) (hf : sendSyncCopy f = true) :
    sendSyncCopy r.selfTraits = true ∧ sendSyncCopy (isFnItemTraits p f) = true := by
  refine ⟨r.supers, ?_⟩
  simp only [sendSyncCopy, Bool.and_eq_true] at hp hf
  simp [sendSyncCopy, isFnItemTraits, phantomDataTraits, pairTraits,
    hp.1.1, hp.1.2, hf.1.1, hf.1.2]

/-- C2 witness: a concrete implementation record and concrete trait vectors. -/
theorem fnItem_implementors_copy_send_sync_witness :
    sendSyncCopy exImplRecord.selfTraits = true ∧
    sendSyncCopy (isFnItemTraits allTraits allTraits) = true :=
  fnItem_implementors_copy_send_sync Nat Nat exImplRecord allTraits allTraits rfl rfl

/-- C3: the fn_item! token is exactly the triple of the IsFnItem proof value,
the PhantomData placeholder of the function-pointer type, and the original
callable value itself; the first two components carry no data, since any two
values of their types are equal. -/
theorem fn_item_token_is_exact_triple (P F : Type) (c : F → P) (f : F) :
    fn_item_match P c f = (assert_is_fn_item P F, PhantomData.mk, f) ∧
    (∀ a b : IsFnItem P F, a = b) ∧ (∀ a b : PhantomData P, a = b) := by
  refine ⟨rfl, ?_, ?_⟩
  · intro a b
    obtain ⟨pa⟩ := a
    obtain ⟨pb⟩ := b
    cases pa
    cases pb
    rfl
  · intro a b
    cases a
    cases b
    rfl

/-- C4: the scrutinee of the match in fn_item! is None, the type Infallible has
no values at all, so the second arm calling fix_types can never be selected,
and the expansion always returns the first-arm triple. -/
theorem fn_item_second_arm_unreachable :
    fn_item_scrutinee = Option.none ∧
    (∀ _e : Infallible, False) ∧
    (∀ (P F : Type) (c : F → P) (f : F),
      fn_item_match P c f = (assert_is_fn_item P F, coerce_to_fn_ptr (c f), f)) := by
  refine ⟨rfl, ?_, ?_⟩
  · rintro ⟨⟩
  · intro P F c f
    rfl

/-- C5 counterexample: the callable type of a capture-free closure has size
zero and alignment one, exactly as the code asserts, so the assertion worded
as zero-size and zero-alignment is false on a token that fn_item! accepts even
though the assertions written in the code pass on it. -/
theorem call_asserts_align_one_not_zero :
    fn_item_compiles exMeta = true ∧ constAssertsHold exMeta = true ∧
    claimedAssertsHold exMeta = false :=
  ⟨rfl, rfl, rfl⟩

/-- C5 amended: FnItem::call contains compile-time evaluated assertions that
the wrapped callable type has size zero and alignment one, whose failure
aborts compilation; under the precondition that the token was built by
fn_item! from a capture-free callable, the assertions hold and call reaches
the wrapped code. -/
theorem call_const_asserts_hold_for_fn_item_tokens
    (F σ A R : Type) [Inhabited F] (m : ClosureMeta F σ A R)
    (hc : fn_item_compiles m = true) (args : A) (s : σ) :
    constAssertsHold m = true ∧
    FnItemCall m args s = Except.ok (m.code default args s) := by
  have hcap : m.capturesVars = false := by
    simpa [fn_item_compiles] using hc
  obtain ⟨h0, h1⟩ := m.zst_of_capture_free hcap
  have hca : constAssertsHold m = true := by
    simp [constAssertsHold, h0, h1]
  exact ⟨hca, by simp [FnItemCall, hca]⟩

/-- C5 witness: the concrete capture-free closure at argument 5 and counter
state 0. -/
theorem call_const_asserts_hold_witness :
    constAssertsHold exMeta = true ∧
    FnItemCall exMeta 5 0 = Except.ok (exMeta.code default 5 0) :=
  call_const_asserts_hold_for_fn_item_tokens Unit Nat Nat Nat exMeta rfl 5 0

/-- C6: the named form of ImplFnItem! expands to the alias applied to three
parts: the named parameter F itself, the lifetime-quantified bare
function-pointer type of the written signature, and an unnamed impl type bound
by Send, Sync, Copy and the Fn trait at the same signature; the one written
lifetime list appears identically in the function-pointer part and in the
callable bound. -/
theorem ImplFnItem_named_form_structure
    (F : RTy) (ls : List String) (args : List RTy) (ret : Option RTy) :
    aliasParts (ImplFnItemNamed F ls args ret) =
      Option.some (F, RTy.fnPtr ls args ret,
        RTy.implTy [RTy.boundSend, RTy.boundSync, RTy.boundCopy,
          RTy.fnTraitBound ls args ret]) ∧
    lifetimesOf (RTy.fnPtr ls args ret) = ls ∧
    lifetimesOf (RTy.fnTraitBound ls args ret) = ls :=
  ⟨rfl, rfl, rfl⟩

/-- C7: the anonymous form of ImplFnItem! equals the named form instantiated at
the synthesized hidden parameter impl FnItem<(T..,), R>, and therefore expands
to the same three-part alias type with that hidden parameter in first
position. -/
theorem ImplFnItem_anon_form_delegates_to_named
    (ls : List String) (args : List RTy) (ret : Option RTy) :
    ImplFnItemAnon ls args ret =
      ImplFnItemNamed (RTy.implTy [RTy.fnItemTraitBound ls args ret]) ls args ret ∧
    aliasParts (ImplFnItemAnon ls args ret) =
      Option.some (RTy.implTy [RTy.fnItemTraitBound ls args ret],
        RTy.fnPtr ls args ret,
        RTy.implTy [RTy.boundSend, RTy.boundSync, RTy.boundCopy,
          RTy.fnTraitBound ls args ret]) :=
  ⟨rfl, rfl⟩

/-- C8: fn_item! evaluates its input expression exactly twice: from any start
state the final state is the one reached after two evaluations, the value
packaged as the third tuple element is the one produced by the second
evaluation, the first evaluation contributes only the type-level PhantomData
placeholder, and on a counting state the expansion bumps the counter by
exactly two. -/
theorem fn_item_evaluates_expression_twice :
    (∀ (P σ F : Type) (c : F → P) (e : Eval σ F) (s : σ),
      fn_item_eval P c e s =
        ((assert_is_fn_item P F, PhantomData.mk, (e (e s).2).1), (e (e s).2).2)) ∧
    (∀ (P F : Type) (c : F → P) (v : F) (n : Nat),
      (fn_item_eval P c (fun k => (v, k + 1)) n).2 = n + 2) :=
  ⟨fun _ _ _ _ _ _ => rfl, fun _ _ _ _ _ => rfl⟩

/-- C9: a closure expression that captures a variable cannot be coerced to a
bare function pointer, so the coerce_to_fn_ptr call in the fn_item! expansion
fails to type-check and the macro invocation fails to compile. -/
theorem fn_item_fails_to_compile_on_captures
    (F σ A R : Type) (m : ClosureMeta F σ A R) (h : m.capturesVars = true) :
    fn_item_compiles m = false := by
  simp [fn_item_compiles, h]

/-- C9 witness: the concrete capturing closure metadata. -/
theorem fn_item_fails_to_compile_on_captures_witness :
    fn_item_compiles capMeta = false :=
  fn_item_fails_to_compile_on_captures Nat Nat Nat Nat capMeta rfl

/-- C10: the impl_tuples! invocation provides an FnItem implementation exactly
for argument tuples of arity zero through nine. -/
theorem fnItem_impl_arities_zero_through_nine (n : Nat) :
    hasFnItemTupleImpl n = true ↔ n ≤ 9 := by
  simp only [hasFnItemTupleImpl, implementedArities, implTuplesRows,
    List.map_cons, List.map_nil, List.length_cons, List.length_nil,
    decide_eq_true_iff, List.mem_cons, List.not_mem_nil, or_false]
  constructor
  · rintro (rfl | rfl | rfl | rfl | rfl | rfl | rfl | rfl | rfl | rfl) <;> omega
  · intro h
    interval_cases n <;> simp
